import Mathlib

/-!
Shallow embedding of the doit-analytics client: the transport layer
(`src/unnamed/part_000`, an axios-based API client) and the session
controller (`src/frontend/src/App.jsx`, a React component).

The React component's state hooks become fields of `AppState`.  Each event
handler is embedded as a pure function from the pre-handler state (the
render-time values captured by the handler's closure) and the outcomes the
environment supplies for its `await`ed transport calls, to the post-handler
state together with a trace of the primitive effects the handler performs,
in program order.  React's semantics are modelled faithfully: a state
setter (`setMessages(...)`) queues an update applied to the latest state,
while reading a state variable inside the handler yields the render-time
closure value, unchanged by setters already called in the same handler.
-/

/-- Message roles appearing in the transcript (App.jsx message objects). -/
inductive Role where
  | user
  | assistant
  | system
deriving DecidableEq, Repr

/-- A transcript entry as built by App.jsx: `role` and `content` always
present; `timestamp`, `sources`, `metadata` present only on some entries.
The backend `metadata` object is opaque to the client and is modelled as an
uninterpreted string value. -/
structure Message where
  role : Role
  content : String
  timestamp : Option String := none
  sources : Option (List String) := none
  metadata : Option String := none
deriving DecidableEq, Repr

/-- An entry of the `history` array sent to `chatWithContext`: the map at
App.jsx lines 126-130 keeps exactly the fields role, content, timestamp. -/
structure HistoryEntry where
  role : Role
  content : String
  timestamp : Option String
deriving DecidableEq, Repr

/-- `GET /health` response shape. -/
structure HealthData where
  ollama_connected : Bool
  chroma_connected : Bool
  model : String
deriving DecidableEq, Repr

/-- One element of the `GET /documents` response list. -/
structure DocumentSummary where
  filename : String
  size : Nat
  upload_time : String
deriving DecidableEq, Repr

/-- `GET /documents` response: the `documents` field may be absent
(App.jsx applies `|| []`). -/
structure DocsResponse where
  documents : Option (List DocumentSummary)
deriving DecidableEq, Repr

/-- `GET /stats` response shape. -/
structure StatsData where
  num_chunks : Nat
  model : String
  embedding_model : String
  has_index : Bool
deriving DecidableEq, Repr

/-- `POST /chat` response as consumed by App.jsx (`answer`, `sources`,
`metadata`; the latter two may be absent). -/
structure ChatResponse where
  answer : String
  sources : Option (List String)
  metadata : Option String
deriving DecidableEq, Repr

/-- `POST /upload` response: App.jsx reads `result.document.num_chunks`. -/
structure UploadResponse where
  num_chunks : Nat
deriving DecidableEq, Repr

/-- An axios error as observed by the handlers: `message` is always
present, `response.data.detail` only sometimes (`error.response?.data?.detail`). -/
structure ApiError where
  detail : Option String
  message : String
deriving DecidableEq, Repr

/-- `error.response?.data?.detail || error.message`: JS `||` falls through
on an absent detail and also on an empty-string detail (falsy). -/
def ApiError.text (e : ApiError) : String :=
  match e.detail with
  | some d => if d = "" then e.message else d
  | none => e.message

/-- A transport request, recording the arguments the session controller
passes to the api module. -/
inductive CallRecord where
  | chat : String → List HistoryEntry → Nat → CallRecord
  | upload : String → CallRecord
  | listDocs : CallRecord
  | statsCall : CallRecord
  | healthCall : CallRecord
  | clearCall : CallRecord
deriving DecidableEq, Repr

/-- Primitive effects a handler performs, in program order: issuing a
transport request, an upload-progress callback invocation (`tick p` is
`onProgress(p)`, i.e. `setUploadProgress(p)`), appending one transcript
entry (`setMessages(prev => [...prev, m])`), replacing the whole
transcript (`setMessages([...])`), and the remaining state setters. -/
inductive Event where
  | req : CallRecord → Event
  | tick : Nat → Event
  | append : Message → Event
  | replaceMsgs : List Message → Event
  | setLoadingE : Bool → Event
  | setUploadingE : Bool → Event
  | setProgressE : Nat → Event
  | setDocsE : List DocumentSummary → Event
  | setStatsE : StatsData → Event
  | setHealthE : HealthData → Event
  | setInputE : String → Event
deriving DecidableEq, Repr

/-- The React state hooks of the App component (App.jsx lines 18-26;
`activeTab` and the two refs play no part in the claims' handlers'
state transitions and are omitted). -/
structure AppState where
  messages : List Message
  inputValue : String
  loading : Bool
  uploading : Bool
  uploadProgress : Nat
  health : Option HealthData
  documents : List DocumentSummary
  stats : Option StatsData
deriving DecidableEq, Repr

/-- JS `String.prototype.trim()`: strip whitespace from both ends.
(Defined over the character list so that it evaluates by `decide`.) -/
def jsTrim (s : String) : String :=
  String.mk (((s.data.dropWhile Char.isWhitespace).reverse.dropWhile
    Char.isWhitespace).reverse)

/-- The history construction at App.jsx lines 124-130: filter out system
messages, keep exactly role, content, timestamp. -/
def mkHistory (msgs : List Message) : List HistoryEntry :=
  (msgs.filter (fun m => m.role ≠ Role.system)).map
    (fun m => { role := m.role, content := m.content, timestamp := m.timestamp })

/-- The optimistic user message of App.jsx lines 112-116 (content is the
raw, untrimmed input; `ts` is `new Date().toISOString()`). -/
def userMessageOf (input ts : String) : Message :=
  { role := Role.user, content := input, timestamp := some ts }

/-- The assistant message of App.jsx lines 134-140. -/
def assistantMessageOf (r : ChatResponse) (ts : String) : Message :=
  { role := Role.assistant, content := r.answer, sources := r.sources,
    metadata := r.metadata, timestamp := some ts }

/-- The chat error message of App.jsx lines 144-147. -/
def chatErrorMessageOf (e : ApiError) : Message :=
  { role := Role.system, content := "❌ Error: " ++ e.text }

/-- `handleSendMessage` (App.jsx lines 109-152).  `ts1`/`ts2` are the two
timestamps the environment supplies; `result` is the outcome of the
`chatWithContext` call.  The guard line 110 reads the render-time
`inputValue` and `loading`; the history at lines 124-130 reads the
render-time `messages`, which does NOT include the user message queued by
the functional update at line 118. -/
def handleSendMessage (s : AppState) (ts1 ts2 : String)
    (result : Except ApiError ChatResponse) : AppState × List Event :=
  if jsTrim s.inputValue = "" ∨ s.loading then (s, [])
  else
    let userMsg := userMessageOf s.inputValue ts1
    let history := mkHistory s.messages
    let callRec := CallRecord.chat s.inputValue history 3
    let s1 := { s with messages := s.messages ++ [userMsg],
                       inputValue := "", loading := true }
    match result with
    | Except.ok resp =>
        let aMsg := assistantMessageOf resp ts2
        ({ s1 with messages := s1.messages ++ [aMsg], loading := false },
         [Event.append userMsg, Event.setInputE "", Event.setLoadingE true,
          Event.req callRec, Event.append aMsg, Event.setLoadingE false])
    | Except.error e =>
        let eMsg := chatErrorMessageOf e
        ({ s1 with messages := s1.messages ++ [eMsg], loading := false },
         [Event.append userMsg, Event.setInputE "", Event.setLoadingE true,
          Event.req callRec, Event.append eMsg, Event.setLoadingE false])

/-- The chat calls issued in a trace, with their arguments. -/
def chatCalls (tr : List Event) : List (String × List HistoryEntry × Nat) :=
  tr.filterMap (fun ev =>
    match ev with
    | Event.req (CallRecord.chat q h k) => some (q, h, k)
    | _ => none)

/-- All transport requests issued in a trace. -/
def reqs (tr : List Event) : List CallRecord :=
  tr.filterMap (fun ev =>
    match ev with
    | Event.req c => some c
    | _ => none)

/-- The percent computation of `uploadDocument`'s `onUploadProgress`
handler (api client lines 35-41): `Math.round((loaded * 100) / total)`,
i.e. round-half-up, expressed in exact arithmetic as
`(200 * loaded + total) / (2 * total)` (Nat floor division).  For
`total = 0` JS would produce NaN; every theorem below assumes a positive
total. -/
def jsRound100 (loaded total : Nat) : Nat :=
  (200 * loaded + total) / (2 * total)

/-- The percent values the transport layer delivers to the progress
callback, one per progress event `(loaded, total)` supplied by the
environment, in order. -/
def uploadTicks (evs : List (Nat × Nat)) : List Nat :=
  evs.map (fun p => jsRound100 p.1 p.2)

/-- The upload success message of App.jsx lines 77-83. -/
def uploadSuccessMessageOf (fname : String) (r : UploadResponse) : Message :=
  { role := Role.system,
    content := "✅ Document \"" ++ fname ++ "\" uploaded successfully! ("
      ++ toString r.num_chunks ++ " chunks)" }

/-- The upload failure message of App.jsx lines 92-97 (the catch covers
the upload call and the two refresh calls alike). -/
def uploadErrorMessageOf (e : ApiError) : Message :=
  { role := Role.system, content := "❌ Upload failed: " ++ e.text }

/-- Environment outcomes for one run of `handleFileUpload`: the raw
progress events `(loaded, total)` the browser reports while bytes are
sent, then the outcomes of the `uploadDocument`, `listDocuments` and
`getStats` calls (the latter two only reached on upload success). -/
structure UploadEnv where
  progressEvents : List (Nat × Nat)
  uploadResult : Except ApiError UploadResponse
  docsResult : Except ApiError DocsResponse
  statsResult : Except ApiError StatsData
deriving Repr

/-- `handleFileUpload` (App.jsx lines 67-106) composed with the
`uploadDocument` transport call (api client lines 27-46).  `file` is the
selected file's name, `none` when no file was selected.  The progress
callback passed is `setUploadProgress` itself; each `tick p` in the trace
is one invocation of it.  The `finally` block resets `uploading` and
`uploadProgress` on every path. -/
def handleFileUpload (s : AppState) (file : Option String) (env : UploadEnv) :
    AppState × List Event :=
  match file with
  | none => (s, [])
  | some fname =>
    let ticks := uploadTicks env.progressEvents
    let s1 := { s with uploading := true, uploadProgress := ticks.getLastD 0 }
    let pre := [Event.setUploadingE true, Event.setProgressE 0,
                Event.req (CallRecord.upload fname)] ++ ticks.map Event.tick
    match env.uploadResult with
    | Except.error e =>
        let eMsg := uploadErrorMessageOf e
        ({ s1 with messages := s1.messages ++ [eMsg],
                   uploading := false, uploadProgress := 0 },
         pre ++ [Event.append eMsg, Event.setUploadingE false,
                 Event.setProgressE 0])
    | Except.ok r =>
        let okMsg := uploadSuccessMessageOf fname r
        let s2 := { s1 with messages := s1.messages ++ [okMsg] }
        match env.docsResult with
        | Except.error e =>
            let eMsg := uploadErrorMessageOf e
            ({ s2 with messages := s2.messages ++ [eMsg],
                       uploading := false, uploadProgress := 0 },
             pre ++ [Event.append okMsg, Event.req CallRecord.listDocs,
                     Event.append eMsg, Event.setUploadingE false,
                     Event.setProgressE 0])
        | Except.ok docs =>
            let s3 := { s2 with documents := docs.documents.getD [] }
            match env.statsResult with
            | Except.error e =>
                let eMsg := uploadErrorMessageOf e
                ({ s3 with messages := s3.messages ++ [eMsg],
                           uploading := false, uploadProgress := 0 },
                 pre ++ [Event.append okMsg, Event.req CallRecord.listDocs,
                         Event.setDocsE (docs.documents.getD []),
                         Event.req CallRecord.statsCall, Event.append eMsg,
                         Event.setUploadingE false, Event.setProgressE 0])
            | Except.ok st =>
                ({ s3 with stats := some st,
                           uploading := false, uploadProgress := 0 },
                 pre ++ [Event.append okMsg, Event.req CallRecord.listDocs,
                         Event.setDocsE (docs.documents.getD []),
                         Event.req CallRecord.statsCall, Event.setStatsE st,
                         Event.setUploadingE false, Event.setProgressE 0])

/-- The clear-all confirmation message of App.jsx lines 162-167
(`setMessages([...])`: a transcript replacement, not an append). -/
def clearedMessage : Message :=
  { role := Role.system, content := "✅ All documents cleared successfully" }

/-- The clear-all error message of App.jsx lines 173-179: note it uses
`error.message` only, with no `detail` extraction. -/
def clearErrorMessageOf (e : ApiError) : Message :=
  { role := Role.system,
    content := "❌ Error clearing documents: " ++ e.message }

/-- `handleClearDocuments` (App.jsx lines 155-181).  `confirmed` is the
result of the `confirm(...)` dialog; `clearResult` and `statsResult` are
the outcomes of `clearAllDocuments` and the follow-up `getStats` (the
latter only reached when the clear succeeded; its failure is caught by
the same catch block). -/
def handleClearDocuments (s : AppState) (confirmed : Bool)
    (clearResult : Except ApiError Unit)
    (statsResult : Except ApiError StatsData) : AppState × List Event :=
  match confirmed with
  | false => (s, [])
  | true =>
    match clearResult with
    | Except.error e =>
        let eMsg := clearErrorMessageOf e
        ({ s with messages := s.messages ++ [eMsg] },
         [Event.req CallRecord.clearCall, Event.append eMsg])
    | Except.ok _ =>
        let s1 := { s with messages := [clearedMessage], documents := [] }
        match statsResult with
        | Except.error e =>
            let eMsg := clearErrorMessageOf e
            ({ s1 with messages := s1.messages ++ [eMsg] },
             [Event.req CallRecord.clearCall,
              Event.replaceMsgs [clearedMessage], Event.setDocsE [],
              Event.req CallRecord.statsCall, Event.append eMsg])
        | Except.ok st =>
            ({ s1 with stats := some st },
             [Event.req CallRecord.clearCall,
              Event.replaceMsgs [clearedMessage], Event.setDocsE [],
              Event.req CallRecord.statsCall, Event.setStatsE st])

/-- The initialization failure message of App.jsx lines 57-62
(`setMessages([...])`: a transcript replacement, not an append). -/
def connectionFailedMessage : Message :=
  { role := Role.system,
    content := "⚠️ Backend connection failed. Please ensure the backend server is running." }

/-- `initializeApp` (App.jsx lines 45-64), also run by the Refresh Status
button (line 430).  The three calls run sequentially inside one try; a
thrown failure skips the remaining calls and the single catch replaces
the transcript with one system message. -/
def initApp (s : AppState) (healthResult : Except ApiError HealthData)
    (docsResult : Except ApiError DocsResponse)
    (statsResult : Except ApiError StatsData) : AppState × List Event :=
  match healthResult with
  | Except.error _ =>
      ({ s with messages := [connectionFailedMessage] },
       [Event.req CallRecord.healthCall,
        Event.replaceMsgs [connectionFailedMessage]])
  | Except.ok h =>
    let s1 := { s with health := some h }
    match docsResult with
    | Except.error _ =>
        ({ s1 with messages := [connectionFailedMessage] },
         [Event.req CallRecord.healthCall, Event.setHealthE h,
          Event.req CallRecord.listDocs,
          Event.replaceMsgs [connectionFailedMessage]])
    | Except.ok docs =>
      let s2 := { s1 with documents := docs.documents.getD [] }
      match statsResult with
      | Except.error _ =>
          ({ s2 with messages := [connectionFailedMessage] },
           [Event.req CallRecord.healthCall, Event.setHealthE h,
            Event.req CallRecord.listDocs,
            Event.setDocsE (docs.documents.getD []),
            Event.req CallRecord.statsCall,
            Event.replaceMsgs [connectionFailedMessage]])
      | Except.ok st =>
          ({ s2 with stats := some st },
           [Event.req CallRecord.healthCall, Event.setHealthE h,
            Event.req CallRecord.listDocs,
            Event.setDocsE (docs.documents.getD []),
            Event.req CallRecord.statsCall, Event.setStatsE st])

/-- One chat turn as the user drives it: the typed input, the two
timestamps, and the successful backend response. -/
structure Turn where
  input : String
  ts1 : String
  ts2 : String
  resp : ChatResponse

/-- Typing the input (the controlled text field's onChange) and then
invoking `handleSendMessage` with a successful outcome. -/
def submitTurn (s : AppState) (t : Turn) : AppState :=
  (handleSendMessage { s with inputValue := t.input } t.ts1 t.ts2
    (Except.ok t.resp)).1

/-- A sequence of successful chat turns, submitted one after another. -/
def runTurns (s : AppState) (ts : List Turn) : AppState :=
  ts.foldl submitTurn s

/-- The two transcript entries one successful turn appends. -/
def turnMessages (t : Turn) : List Message :=
  [userMessageOf t.input t.ts1, assistantMessageOf t.resp t.ts2]

/-- The strict user/assistant alternation of length `2 * n`. -/
def altRoles : Nat → List Role
  | 0 => []
  | n + 1 => Role.user :: Role.assistant :: altRoles n

/-- `true` for every trace event except a transcript append. -/
def notAppendEv : Event → Bool := fun ev =>
  match ev with
  | Event.append _ => false
  | _ => true

/-- The percent of a progress-callback event, `none` for other events. -/
def tickVal : Event → Option Nat := fun ev =>
  match ev with
  | Event.tick p => some p
  | _ => none

/-- The progress-callback percents delivered strictly before the first
transcript append of a trace. -/
def ticksBeforeFirstAppend (tr : List Event) : List Nat :=
  (tr.takeWhile notAppendEv).filterMap tickVal

/-- The progress-callback percents delivered at or after the first
transcript append of a trace. -/
def ticksFromFirstAppend (tr : List Event) : List Nat :=
  (tr.dropWhile notAppendEv).filterMap tickVal

/-- A fresh, fully default component state. -/
def baseState : AppState :=
  { messages := [], inputValue := "", loading := false, uploading := false,
    uploadProgress := 0, health := none, documents := [], stats := none }

/-- A small concrete backend answer used by witnesses. -/
def respA : ChatResponse :=
  { answer := "ans", sources := some ["s1"], metadata := some "m" }

/-- A concrete transport error with no structured detail. -/
def errNet : ApiError := { detail := none, message := "Network Error" }

/-- A transcript with a system note and one completed exchange, used by
witnesses. -/
def mixedState : AppState :=
  { baseState with
    messages :=
      [{ role := Role.system, content := "note" },
       { role := Role.user, content := "q0", timestamp := some "t0" },
       { role := Role.assistant, content := "a0", timestamp := some "ta" }],
    inputValue := "  hi  " }

/-- Evaluation of `handleSendMessage` on the success path when the guard
passes. -/
theorem handleSendMessage_ok_eq (s : AppState) (ts1 ts2 : String)
    (resp : ChatResponse) (h1 : ¬ jsTrim s.inputValue = "")
    (h2 : s.loading = false) :
    handleSendMessage s ts1 ts2 (Except.ok resp) =
      ({ s with
          messages := s.messages ++
            [userMessageOf s.inputValue ts1, assistantMessageOf resp ts2],
          inputValue := "", loading := false },
       [Event.append (userMessageOf s.inputValue ts1), Event.setInputE "",
        Event.setLoadingE true,
        Event.req (CallRecord.chat s.inputValue (mkHistory s.messages) 3),
        Event.append (assistantMessageOf resp ts2),
        Event.setLoadingE false]) := by
  simp [handleSendMessage, h1, h2]

/-- Evaluation of `handleSendMessage` on the failure path when the guard
passes. -/
theorem handleSendMessage_err_eq (s : AppState) (ts1 ts2 : String)
    (e : ApiError) (h1 : ¬ jsTrim s.inputValue = "")
    (h2 : s.loading = false) :
    handleSendMessage s ts1 ts2 (Except.error e) =
      ({ s with
          messages := s.messages ++
            [userMessageOf s.inputValue ts1, chatErrorMessageOf e],
          inputValue := "", loading := false },
       [Event.append (userMessageOf s.inputValue ts1), Event.setInputE "",
        Event.setLoadingE true,
        Event.req (CallRecord.chat s.inputValue (mkHistory s.messages) 3),
        Event.append (chatErrorMessageOf e),
        Event.setLoadingE false]) := by
  simp [handleSendMessage, h1, h2]

/-- Every entry of a constructed history has a non-system role and is the
exact role/content/timestamp projection of a non-system transcript
entry. -/
theorem mkHistory_shape (msgs : List Message) :
    (∀ en ∈ mkHistory msgs, en.role ≠ Role.system) ∧
      mkHistory msgs = (msgs.filter (fun m => m.role ≠ Role.system)).map
        (fun m => { role := m.role, content := m.content,
                    timestamp := m.timestamp }) := by
  refine ⟨?_, rfl⟩
  intro en hen
  simp only [mkHistory, List.mem_map, List.mem_filter] at hen
  obtain ⟨m, ⟨_, hm⟩, rfl⟩ := hen
  simpa using hm

/-- C1: whatever the transcript composition, any history passed to
`chatWithContext` by `handleSendMessage` contains no entry with role
`system`, and equals the non-system transcript entries mapped to exactly
the fields role, content, timestamp. -/
theorem chat_history_no_system_exact_fields (s : AppState)
    (ts1 ts2 : String) (res : Except ApiError ChatResponse) (q : String)
    (hist : List HistoryEntry) (k : Nat)
    (hmem : (q, hist, k) ∈ chatCalls (handleSendMessage s ts1 ts2 res).2) :
    (∀ en ∈ hist, en.role ≠ Role.system) ∧
      hist = (s.messages.filter (fun m => m.role ≠ Role.system)).map
        (fun m => { role := m.role, content := m.content,
                    timestamp := m.timestamp }) := by
  have hh : hist = mkHistory s.messages := by
    by_cases hg : jsTrim s.inputValue = "" ∨ s.loading
    · simp [handleSendMessage, hg, chatCalls] at hmem
    · push_neg at hg
      obtain ⟨h1, h2⟩ := hg
      cases res with
      | ok resp =>
          rw [handleSendMessage_ok_eq s ts1 ts2 resp h1 (by simpa using h2)]
            at hmem
          simp [chatCalls] at hmem
          exact hmem.2.1
      | error e =>
          rw [handleSendMessage_err_eq s ts1 ts2 e h1 (by simpa using h2)]
            at hmem
          simp [chatCalls] at hmem
          exact hmem.2.1
  subst hh
  exact mkHistory_shape s.messages

/-- Witness for C1: a transcript holding a system note, a user and an
assistant entry yields a two-entry, system-free history. -/
theorem chat_history_no_system_exact_fields_witness :
    (∀ en ∈ [({ role := Role.user, content := "q0",
                timestamp := some "t0" } : HistoryEntry),
             { role := Role.assistant, content := "a0",
               timestamp := some "ta" }], en.role ≠ Role.system) ∧
      [({ role := Role.user, content := "q0",
          timestamp := some "t0" } : HistoryEntry),
       { role := Role.assistant, content := "a0", timestamp := some "ta" }] =
        (mixedState.messages.filter (fun m => m.role ≠ Role.system)).map
          (fun m => { role := m.role, content := m.content,
                      timestamp := m.timestamp }) :=
  chat_history_no_system_exact_fields mixedState "t1" "t2" (Except.ok respA)
    "  hi  "
    [{ role := Role.user, content := "q0", timestamp := some "t0" },
     { role := Role.assistant, content := "a0", timestamp := some "ta" }]
    3 (by decide)

/-- An empty transcript with the input "hello" typed, about to submit. -/
def freshInputState : AppState := { baseState with inputValue := "hello" }

/-- C2 counterexample: submitting "hello" on an empty transcript issues a
chat call whose history is `[]` — it does not contain the just-appended
user message at all, let alone as its last entry.  The history is read
from the render-time `messages` closure value, which the functional
update of line 118 does not change. -/
theorem chat_history_excludes_current_cex :
    chatCalls (handleSendMessage freshInputState "t1" "t2"
        (Except.ok respA)).2 = [("hello", [], 3)] ∧
      ([] : List HistoryEntry).getLast? ≠
        some { role := Role.user, content := "hello",
               timestamp := some "t1" } := by
  exact ⟨by decide, by decide⟩

/-- C2 amended: the history passed to `chatWithContext` is built from the
transcript as it was before this submission's append; the just-appended
user message is not part of it (the new input travels only as the
separate query argument). -/
theorem chat_history_from_prior_transcript (s : AppState)
    (ts1 ts2 : String) (res : Except ApiError ChatResponse)
    (h1 : ¬ jsTrim s.inputValue = "") (h2 : s.loading = false) :
    chatCalls (handleSendMessage s ts1 ts2 res).2 =
      [(s.inputValue, mkHistory s.messages, 3)] := by
  cases res with
  | ok resp => rw [handleSendMessage_ok_eq s ts1 ts2 resp h1 h2]; rfl
  | error e => rw [handleSendMessage_err_eq s ts1 ts2 e h1 h2]; rfl

/-- Witness for the amended C2 at a concrete state. -/
theorem chat_history_from_prior_transcript_witness :
    chatCalls (handleSendMessage freshInputState "t1" "t2"
        (Except.ok respA)).2 = [("hello", mkHistory freshInputState.messages, 3)] :=
  chat_history_from_prior_transcript freshInputState "t1" "t2"
    (Except.ok respA) (by decide) rfl

/-- One successful submission, evaluated: it appends exactly the user and
assistant entries of the turn, clears the input, and ends idle. -/
theorem submitTurn_eq (s : AppState) (t : Turn)
    (h1 : ¬ jsTrim t.input = "") (h2 : s.loading = false) :
    submitTurn s t = { s with messages := s.messages ++ turnMessages t,
                              inputValue := "", loading := false } := by
  unfold submitTurn
  rw [handleSendMessage_ok_eq { s with inputValue := t.input } t.ts1 t.ts2
    t.resp (by simpa using h1) h2]
  simp [turnMessages]

/-- The appended block of a turn sequence, and idleness afterwards. -/
theorem runTurns_messages (s : AppState) (ts : List Turn)
    (hts : ∀ t ∈ ts, ¬ jsTrim t.input = "") (hl : s.loading = false) :
    (runTurns s ts).messages = s.messages ++ ts.flatMap turnMessages ∧
      (runTurns s ts).loading = false := by
  induction ts generalizing s with
  | nil => simpa [runTurns] using hl
  | cons t ts ih =>
      have h1 := hts t (List.mem_cons_self t ts)
      have hstep : runTurns s (t :: ts) = runTurns (submitTurn s t) ts := rfl
      rw [hstep, submitTurn_eq s t h1 hl]
      obtain ⟨hm, hload⟩ := ih
        { s with messages := s.messages ++ turnMessages t,
                 inputValue := "", loading := false }
        (fun u hu => hts u (List.mem_cons_of_mem _ hu)) rfl
      exact ⟨by rw [hm]; simp, hload⟩

/-- The roles of the appended block alternate strictly. -/
theorem turnMessages_roles (ts : List Turn) :
    (ts.flatMap turnMessages).map Message.role = altRoles ts.length := by
  induction ts with
  | nil => rfl
  | cons t ts ih =>
      simp [turnMessages, altRoles, userMessageOf, assistantMessageOf, ih]

/-- `altRoles n` has length `2 * n`. -/
theorem altRoles_length (n : Nat) : (altRoles n).length = 2 * n := by
  induction n with
  | zero => rfl
  | succ n ih => simp [altRoles, ih]; omega

/-- C3: after any sequence of N successful chat turns, the transcript is
the prior transcript with exactly 2N new entries appended, whose roles
alternate strictly user, assistant, user, assistant, … in submission
order. -/
theorem transcript_strict_alternation (s : AppState) (ts : List Turn)
    (hts : ∀ t ∈ ts, ¬ jsTrim t.input = "") (hl : s.loading = false) :
    (runTurns s ts).messages = s.messages ++ ts.flatMap turnMessages ∧
      (ts.flatMap turnMessages).map Message.role = altRoles ts.length ∧
      (ts.flatMap turnMessages).length = 2 * ts.length := by
  refine ⟨(runTurns_messages s ts hts hl).1, turnMessages_roles ts, ?_⟩
  have := congrArg List.length (turnMessages_roles ts)
  simpa [altRoles_length] using this

/-- Witness for C3: two successful turns on top of a transcript that
already held a system note. -/
theorem transcript_strict_alternation_witness :
    (runTurns { baseState with
        messages := [{ role := Role.system, content := "note" }] }
      [{ input := "q1", ts1 := "t1", ts2 := "t2", resp := respA },
       { input := "q2", ts1 := "t3", ts2 := "t4", resp := respA }]).messages
      = [{ role := Role.system, content := "note" }] ++
        ([{ input := "q1", ts1 := "t1", ts2 := "t2", resp := respA },
          { input := "q2", ts1 := "t3", ts2 := "t4",
            resp := respA }] : List Turn).flatMap turnMessages ∧
      (([{ input := "q1", ts1 := "t1", ts2 := "t2", resp := respA },
         { input := "q2", ts1 := "t3", ts2 := "t4",
           resp := respA }] : List Turn).flatMap turnMessages).map
        Message.role = altRoles 2 ∧
      (([{ input := "q1", ts1 := "t1", ts2 := "t2", resp := respA },
         { input := "q2", ts1 := "t3", ts2 := "t4",
           resp := respA }] : List Turn).flatMap turnMessages).length = 2 * 2 :=
  transcript_strict_alternation
    { baseState with messages := [{ role := Role.system, content := "note" }] }
    [{ input := "q1", ts1 := "t1", ts2 := "t2", resp := respA },
     { input := "q2", ts1 := "t3", ts2 := "t4", resp := respA }]
    (by decide) rfl

/-- C4 counterexample: a failed chat turn from an empty transcript leaves
a two-entry transcript — the operation appends the optimistic user
message AND the system error entry, so it does not append "exactly one
transcript entry", and the first appended entry has role `user`, not
`system`. -/
theorem chat_failure_two_appends_cex :
    (handleSendMessage freshInputState "t1" "t2"
        (Except.error errNet)).1.messages.length =
      freshInputState.messages.length + 2 ∧
      (handleSendMessage freshInputState "t1" "t2"
          (Except.error errNet)).1.messages.map Message.role =
        [Role.user, Role.system] ∧
      freshInputState.messages.length + 2 ≠
        freshInputState.messages.length + 1 := by
  refine ⟨by decide, by decide, by decide⟩

/-- C4 amended: a failed chat call makes the send operation append
exactly two entries — the optimistic user message followed by exactly one
entry of role `system` carrying the error text — and leaves the loading
flag false. -/
theorem chat_failure_appends_user_and_one_system (s : AppState)
    (ts1 ts2 : String) (e : ApiError) (h1 : ¬ jsTrim s.inputValue = "")
    (h2 : s.loading = false) :
    (handleSendMessage s ts1 ts2 (Except.error e)).1.messages =
        s.messages ++ [userMessageOf s.inputValue ts1, chatErrorMessageOf e] ∧
      (chatErrorMessageOf e).role = Role.system ∧
      (userMessageOf s.inputValue ts1).role = Role.user ∧
      (handleSendMessage s ts1 ts2 (Except.error e)).1.loading = false := by
  rw [handleSendMessage_err_eq s ts1 ts2 e h1 h2]
  exact ⟨rfl, rfl, rfl, rfl⟩

/-- Witness for the amended C4. -/
theorem chat_failure_appends_user_and_one_system_witness :
    (handleSendMessage freshInputState "t1" "t2"
        (Except.error errNet)).1.messages =
        freshInputState.messages ++
          [userMessageOf "hello" "t1", chatErrorMessageOf errNet] ∧
      (chatErrorMessageOf errNet).role = Role.system ∧
      (userMessageOf "hello" "t1").role = Role.user ∧
      (handleSendMessage freshInputState "t1" "t2"
          (Except.error errNet)).1.loading = false :=
  chat_failure_appends_user_and_one_system freshInputState "t1" "t2" errNet
    (by decide) rfl

/-- C5: a submission whose input trims to empty, or made while a turn is
already awaiting a response, leaves the state untouched and performs no
effect at all — in particular the trace holds no transport request and
the transcript length is unchanged. -/
theorem send_guard_noop (s : AppState) (ts1 ts2 : String)
    (res : Except ApiError ChatResponse)
    (h : jsTrim s.inputValue = "" ∨ s.loading = true) :
    handleSendMessage s ts1 ts2 res = (s, []) ∧
      reqs (handleSendMessage s ts1 ts2 res).2 = [] ∧
      (handleSendMessage s ts1 ts2 res).1.messages.length =
        s.messages.length := by
    have hg : jsTrim s.inputValue = "" ∨ s.loading = true := h
    have : handleSendMessage s ts1 ts2 res = (s, []) := by
      unfold handleSendMessage
      rcases hg with hg | hg <;> simp [hg]
    exact ⟨this, by rw [this]; rfl, by rw [this]⟩

/-- Witness for C5 with whitespace-only input. -/
theorem send_guard_noop_witness :
    handleSendMessage { baseState with inputValue := "   " } "t1" "t2"
        (Except.ok respA) = ({ baseState with inputValue := "   " }, []) ∧
      reqs (handleSendMessage { baseState with inputValue := "   " } "t1"
        "t2" (Except.ok respA)).2 = [] ∧
      (handleSendMessage { baseState with inputValue := "   " } "t1" "t2"
        (Except.ok respA)).1.messages.length =
        ({ baseState with inputValue := "   " } : AppState).messages.length :=
  send_guard_noop { baseState with inputValue := "   " } "t1" "t2"
    (Except.ok respA) (Or.inl (by decide))

/-- C10: when the guard passes, the raw untrimmed input string is used
both as the query of the chat call and as the content of the appended
user entry; trimming happens only inside the guard test. -/
theorem raw_input_used_untrimmed (s : AppState) (ts1 ts2 : String)
    (res : Except ApiError ChatResponse) (h1 : ¬ jsTrim s.inputValue = "")
    (h2 : s.loading = false) :
    (chatCalls (handleSendMessage s ts1 ts2 res).2).map
        (fun c => c.1) = [s.inputValue] ∧
      (handleSendMessage s ts1 ts2 res).1.messages.get? s.messages.length =
        some { role := Role.user, content := s.inputValue,
               timestamp := some ts1 } := by
  cases res with
  | ok resp =>
      rw [handleSendMessage_ok_eq s ts1 ts2 resp h1 h2]
      refine ⟨rfl, ?_⟩
      simp [userMessageOf, List.getElem?_append_right, List.getElem_append_right]
  | error e =>
      rw [handleSendMessage_err_eq s ts1 ts2 e h1 h2]
      refine ⟨rfl, ?_⟩
      simp [userMessageOf, List.getElem?_append_right, List.getElem_append_right]

/-- Witness for C10: the input has leading and trailing whitespace, and
the query and appended content keep it verbatim. -/
theorem raw_input_used_untrimmed_witness :
    (chatCalls (handleSendMessage mixedState "t1" "t2"
        (Except.ok respA)).2).map (fun c => c.1) = ["  hi  "] ∧
      (handleSendMessage mixedState "t1" "t2"
          (Except.ok respA)).1.messages.get? mixedState.messages.length =
        some { role := Role.user, content := "  hi  ",
               timestamp := some "t1" } :=
  raw_input_used_untrimmed mixedState "t1" "t2" (Except.ok respA)
    (by decide) rfl

/-- A concrete stats snapshot used by witnesses. -/
def stSample : StatsData :=
  { num_chunks := 20, model := "llama", embedding_model := "mini",
    has_index := true }

/-- A concrete document summary used by witnesses. -/
def dSample : DocumentSummary :=
  { filename := "notes.txt", size := 1024, upload_time := "t" }

/-- A concrete stats-call failure. -/
def errStats : ApiError := { detail := none, message := "stats down" }

/-- A populated state used by the clear-all counterexample. -/
def clearCexState : AppState :=
  { baseState with
    messages := [{ role := Role.user, content := "old", timestamp := some "t0" }],
    documents := [dSample] }

/-- C6 counterexample: the user confirms, `clearAllDocuments` succeeds,
but the follow-up `getStats` (inside the same try) fails; the final
transcript holds the confirmation entry plus an appended system error
entry — two entries, not "exactly one system confirmation entry". -/
theorem clear_success_not_single_entry_cex :
    (handleClearDocuments clearCexState true (Except.ok ())
        (Except.error errStats)).1.messages =
      [clearedMessage, clearErrorMessageOf errStats] ∧
      [clearedMessage, clearErrorMessageOf errStats] ≠ [clearedMessage] := by
  exact ⟨by decide, by decide⟩

/-- C6 amended: on a confirmed clear, (a) if both `clearAllDocuments` and
the follow-up stats refresh succeed, the document list becomes empty and
the transcript becomes exactly the one system confirmation entry, all
prior content discarded; (b) if the clear succeeds but the stats refresh
fails, the document list still becomes empty and the transcript is the
confirmation entry plus exactly one appended system error entry, with the
stats snapshot unchanged; (c) if `clearAllDocuments` fails, documents,
stats and the existing transcript entries are unchanged except for
exactly one appended system error entry. -/
theorem clear_outcomes (s : AppState) (st : StatsData) (e eS : ApiError)
    (r : Except ApiError StatsData) :
    (handleClearDocuments s true (Except.ok ()) (Except.ok st)).1 =
        { s with messages := [clearedMessage], documents := [],
                 stats := some st } ∧
      (handleClearDocuments s true (Except.ok ()) (Except.error eS)).1 =
        { s with messages := [clearedMessage, clearErrorMessageOf eS],
                 documents := [] } ∧
      (handleClearDocuments s true (Except.error e) r).1 =
        { s with messages := s.messages ++ [clearErrorMessageOf e] } ∧
      (clearedMessage.role = Role.system ∧
        (clearErrorMessageOf e).role = Role.system) := by
  exact ⟨rfl, rfl, rfl, rfl, rfl⟩

/-- An all-success upload environment: two progress events, then a
20-chunk response and successful refreshes. -/
def envOk : UploadEnv :=
  { progressEvents := [(50, 100), (100, 100)],
    uploadResult := Except.ok { num_chunks := 20 },
    docsResult := Except.ok { documents := some [dSample] },
    statsResult := Except.ok stSample }

/-- An upload environment whose upload call fails. -/
def envFail : UploadEnv :=
  { progressEvents := [(10, 100)],
    uploadResult := Except.error errNet,
    docsResult := Except.ok { documents := none },
    statsResult := Except.ok stSample }

/-- C7 counterexample: in a fully successful upload the event that
immediately follows the success-message append (trace index 5) is the
`listDocuments` request — not a reset of the upload state, which only
happens after the two refresh calls.  So the reset does not take effect
immediately after the success message is appended. -/
theorem upload_reset_not_immediate_cex :
    (handleFileUpload baseState (some "notes.txt") envOk).2.get? 5 =
        some (Event.append
          (uploadSuccessMessageOf "notes.txt" { num_chunks := 20 })) ∧
      (handleFileUpload baseState (some "notes.txt") envOk).2.get? 6 =
        some (Event.req CallRecord.listDocs) ∧
      Event.req CallRecord.listDocs ≠ Event.setUploadingE false ∧
      Event.req CallRecord.listDocs ≠ Event.setProgressE 0 := by
  exact ⟨by decide, by decide, by decide, by decide⟩

/-- C7 amended: every upload attempt terminates with the upload state
reset to inProgress=false, percent=0.  On failure the two reset effects
immediately follow the appended system failure message; on success the
reset happens only after the document-list and stats refresh calls that
follow the appended system success message. -/
theorem upload_reset_on_termination (s : AppState) (fname : String)
    (env : UploadEnv) :
    ((handleFileUpload s (some fname) env).1.uploading = false ∧
      (handleFileUpload s (some fname) env).1.uploadProgress = 0) ∧
      (∀ e, env.uploadResult = Except.error e →
        (handleFileUpload s (some fname) env).2 =
          ([Event.setUploadingE true, Event.setProgressE 0,
            Event.req (CallRecord.upload fname)] ++
              (uploadTicks env.progressEvents).map Event.tick) ++
            [Event.append (uploadErrorMessageOf e),
             Event.setUploadingE false, Event.setProgressE 0]) ∧
      (∀ r docs st, env.uploadResult = Except.ok r →
        env.docsResult = Except.ok docs → env.statsResult = Except.ok st →
        (handleFileUpload s (some fname) env).2 =
          ([Event.setUploadingE true, Event.setProgressE 0,
            Event.req (CallRecord.upload fname)] ++
              (uploadTicks env.progressEvents).map Event.tick) ++
            [Event.append (uploadSuccessMessageOf fname r),
             Event.req CallRecord.listDocs,
             Event.setDocsE (docs.documents.getD []),
             Event.req CallRecord.statsCall, Event.setStatsE st,
             Event.setUploadingE false, Event.setProgressE 0]) := by
  refine ⟨?_, ?_, ?_⟩
  · rcases hu : env.uploadResult with e | r
    · simp [handleFileUpload, hu]
    · rcases hd : env.docsResult with e | docs
      · simp [handleFileUpload, hu, hd]
      · rcases hst : env.statsResult with e | st <;>
          simp [handleFileUpload, hu, hd, hst]
  · intro e he
    simp [handleFileUpload, he]
  · intro r docs st h1 h2 h3
    simp [handleFileUpload, h1, h2, h3]

/-- Witness for the amended C7 on the failing environment, together with
the reset-on-termination part. -/
theorem upload_reset_on_termination_witness :
    ((handleFileUpload baseState (some "a.txt") envFail).1.uploading = false ∧
      (handleFileUpload baseState (some "a.txt") envFail).1.uploadProgress
        = 0) ∧
      (handleFileUpload baseState (some "a.txt") envFail).2 =
        ([Event.setUploadingE true, Event.setProgressE 0,
          Event.req (CallRecord.upload "a.txt")] ++
            (uploadTicks envFail.progressEvents).map Event.tick) ++
          [Event.append (uploadErrorMessageOf errNet),
           Event.setUploadingE false, Event.setProgressE 0] :=
  ⟨(upload_reset_on_termination baseState "a.txt" envFail).1,
   (upload_reset_on_termination baseState "a.txt" envFail).2.1 errNet rfl⟩

/-- Rounding is monotone in the bytes loaded. -/
theorem jsRound100_mono (t : Nat) {a b : Nat} (h : a ≤ b) :
    jsRound100 a t ≤ jsRound100 b t :=
  Nat.div_le_div_right (by omega)

/-- Rounded percents never exceed 100 while loaded ≤ total. -/
theorem jsRound100_le (l t : Nat) (h1 : l ≤ t) (h2 : 0 < t) :
    jsRound100 l t ≤ 100 := by
  unfold jsRound100
  have h3 : 200 * l + t < 101 * (2 * t) := by omega
  have h4 := (Nat.div_lt_iff_lt_mul (x := 200 * l + t) (y := 101)
    (k := 2 * t) (by omega)).mpr h3
  omega

/-- A full transfer rounds to exactly 100. -/
theorem jsRound100_top (t : Nat) (h : 0 < t) : jsRound100 t t = 100 := by
  unfold jsRound100
  exact Nat.div_eq_of_lt_le (by omega) (by omega)

/-- Splitting a trace made of tick events followed by an append. -/
theorem tick_block_split (ps : List Nat) (m : Message) (rest : List Event) :
    (ps.map Event.tick ++ Event.append m :: rest).takeWhile notAppendEv =
        ps.map Event.tick ∧
      (ps.map Event.tick ++ Event.append m :: rest).dropWhile notAppendEv =
        Event.append m :: rest := by
  induction ps with
  | nil => simp [List.takeWhile, List.dropWhile, notAppendEv]
  | cons p ps ih =>
      simp [List.takeWhile_cons, List.dropWhile_cons, notAppendEv, ih]

/-- Tick events alone feed the progress-callback extraction. -/
theorem filterMap_tickVal_map_tick (ps : List Nat) :
    (ps.map Event.tick).filterMap tickVal = ps := by
  induction ps with
  | nil => rfl
  | cons p ps ih => simp [tickVal, ih]

/-- Composed form of the previous extraction lemma. -/
theorem filterMap_tickVal_comp (ps : List Nat) :
    ps.filterMap (tickVal ∘ Event.tick) = ps := by
  induction ps with
  | nil => rfl
  | cons p ps ih => simp [tickVal, Function.comp, ih]

/-- C8: during a successful upload — the browser reporting a fixed
positive total, byte counts that never decrease, never exceed the total,
and reach the total on the final event — the percents delivered to the
progress callback are non-decreasing naturals bounded by 100, the final
delivered value is exactly 100, every callback invocation happens before
the success message is appended, and no invocation happens at or after
that append (i.e. after the upload call resolved). -/
theorem upload_progress_monotone_to_100 (s : AppState) (fname : String)
    (env : UploadEnv) (r : UploadResponse) (loads : List Nat) (T : Nat)
    (hok : env.uploadResult = Except.ok r)
    (henv : env.progressEvents = loads.map (fun l => (l, T)))
    (hT : 0 < T)
    (hle : ∀ l ∈ loads, l ≤ T)
    (hmono : List.Chain' (· ≤ ·) loads)
    (hlast : loads.getLast? = some T) :
    List.Chain' (· ≤ ·) (uploadTicks env.progressEvents) ∧
      (∀ x ∈ uploadTicks env.progressEvents, x ≤ 100) ∧
      (uploadTicks env.progressEvents).getLast? = some 100 ∧
      ticksBeforeFirstAppend (handleFileUpload s (some fname) env).2 =
        uploadTicks env.progressEvents ∧
      ticksFromFirstAppend (handleFileUpload s (some fname) env).2 = [] ∧
      ((handleFileUpload s (some fname) env).2.dropWhile notAppendEv).head?
        = some (Event.append (uploadSuccessMessageOf fname r)) := by
  have hticks : uploadTicks env.progressEvents =
      loads.map (fun l => jsRound100 l T) := by
    rw [henv]
    simp [uploadTicks, List.map_map, Function.comp]
  have htr : ∃ rest, (handleFileUpload s (some fname) env).2 =
      [Event.setUploadingE true, Event.setProgressE 0,
       Event.req (CallRecord.upload fname)] ++
        ((uploadTicks env.progressEvents).map Event.tick ++
          (Event.append (uploadSuccessMessageOf fname r) :: rest)) ∧
      rest.filterMap tickVal = [] := by
    rcases hd : env.docsResult with e | docs
    · refine ⟨[Event.req CallRecord.listDocs,
        Event.append (uploadErrorMessageOf e), Event.setUploadingE false,
        Event.setProgressE 0], ?_, by simp [tickVal]⟩
      simp [handleFileUpload, hok, hd]
    · rcases hst : env.statsResult with e2 | st
      · refine ⟨[Event.req CallRecord.listDocs,
          Event.setDocsE (docs.documents.getD []),
          Event.req CallRecord.statsCall,
          Event.append (uploadErrorMessageOf e2), Event.setUploadingE false,
          Event.setProgressE 0], ?_, by simp [tickVal]⟩
        simp [handleFileUpload, hok, hd, hst]
      · refine ⟨[Event.req CallRecord.listDocs,
          Event.setDocsE (docs.documents.getD []),
          Event.req CallRecord.statsCall, Event.setStatsE st,
          Event.setUploadingE false, Event.setProgressE 0], ?_,
          by simp [tickVal]⟩
        simp [handleFileUpload, hok, hd, hst]
  obtain ⟨rest, htr, hrest⟩ := htr
  have hsplit := tick_block_split ((uploadTicks env.progressEvents))
    (uploadSuccessMessageOf fname r) rest
  refine ⟨?_, ?_, ?_, ?_, ?_, ?_⟩
  · rw [hticks]
    exact (List.chain'_map _).mpr
      (hmono.imp (fun a b h => jsRound100_mono T h))
  · intro x hx
    rw [hticks] at hx
    obtain ⟨l, hl, rfl⟩ := List.mem_map.mp hx
    exact jsRound100_le l T (hle l hl) hT
  · rw [hticks, List.getLast?_map, hlast]
    simp [jsRound100_top T hT]
  · rw [ticksBeforeFirstAppend, htr]
    simp [List.takeWhile_cons, notAppendEv, hsplit.1,
      filterMap_tickVal_map_tick, filterMap_tickVal_comp, tickVal]
  · rw [ticksFromFirstAppend, htr]
    simp [List.dropWhile_cons, notAppendEv, hsplit.2, tickVal, hrest]
  · rw [htr]
    simp [List.dropWhile_cons, notAppendEv, hsplit.2]

/-- Witness for C8 on the concrete all-success environment. -/
theorem upload_progress_monotone_to_100_witness :
    List.Chain' (· ≤ ·) (uploadTicks envOk.progressEvents) ∧
      (∀ x ∈ uploadTicks envOk.progressEvents, x ≤ 100) ∧
      (uploadTicks envOk.progressEvents).getLast? = some 100 ∧
      ticksBeforeFirstAppend
          (handleFileUpload baseState (some "notes.txt") envOk).2 =
        uploadTicks envOk.progressEvents ∧
      ticksFromFirstAppend
          (handleFileUpload baseState (some "notes.txt") envOk).2 = [] ∧
      ((handleFileUpload baseState (some "notes.txt")
          envOk).2.dropWhile notAppendEv).head?
        = some (Event.append
            (uploadSuccessMessageOf "notes.txt" { num_chunks := 20 })) :=
  upload_progress_monotone_to_100 baseState "notes.txt" envOk
    { num_chunks := 20 } [50, 100] 100 rfl rfl (by decide) (by decide)
    (by norm_num [List.chain'_cons]) rfl

/-- A two-entry transcript, as before pressing Refresh Status. -/
def initCexState : AppState :=
  { baseState with
    messages :=
      [{ role := Role.user, content := "m1", timestamp := some "t1" },
       { role := Role.assistant, content := "m2", timestamp := some "t2" }] }

/-- C9 counterexample: when the health call of the initialization
sequence fails over a two-entry transcript (the Refresh Status button
reruns the sequence), the transcript is REPLACED by the single system
message — it does not gain one appended entry, and the prior content is
gone. -/
theorem init_replaces_transcript_cex :
    (initApp initCexState (Except.error errNet)
        (Except.ok { documents := none })
        (Except.ok stSample)).1.messages = [connectionFailedMessage] ∧
      initCexState.messages.length = 2 ∧
      ([connectionFailedMessage] : List Message).length ≠
        initCexState.messages.length + 1 := by
  exact ⟨by decide, rfl, by decide⟩

/-- C9 amended: a failure at any point of the initialization sequence
replaces the transcript with exactly one system message (an append only
when the transcript was empty, as on initial mount), leaves every state
item whose fetch did not complete at its previous value (its default on
initial mount), and short-circuits the remaining calls: after a health
failure only the health request was issued, after a document-list
failure only health and documents, after a stats failure all three. -/
theorem init_failure_shortcircuit (s : AppState) (h : HealthData)
    (docs : DocsResponse) (e1 e2 e3 : ApiError)
    (dr : Except ApiError DocsResponse)
    (sr sr2 : Except ApiError StatsData) :
    ((initApp s (Except.error e1) dr sr).1.messages =
        [connectionFailedMessage] ∧
      (initApp s (Except.error e1) dr sr).1.health = s.health ∧
      (initApp s (Except.error e1) dr sr).1.documents = s.documents ∧
      (initApp s (Except.error e1) dr sr).1.stats = s.stats ∧
      reqs (initApp s (Except.error e1) dr sr).2 =
        [CallRecord.healthCall]) ∧
    ((initApp s (Except.ok h) (Except.error e2) sr2).1.messages =
        [connectionFailedMessage] ∧
      (initApp s (Except.ok h) (Except.error e2) sr2).1.health = some h ∧
      (initApp s (Except.ok h) (Except.error e2) sr2).1.documents =
        s.documents ∧
      (initApp s (Except.ok h) (Except.error e2) sr2).1.stats = s.stats ∧
      reqs (initApp s (Except.ok h) (Except.error e2) sr2).2 =
        [CallRecord.healthCall, CallRecord.listDocs]) ∧
    ((initApp s (Except.ok h) (Except.ok docs)
          (Except.error e3)).1.messages = [connectionFailedMessage] ∧
      (initApp s (Except.ok h) (Except.ok docs)
          (Except.error e3)).1.stats = s.stats ∧
      reqs (initApp s (Except.ok h) (Except.ok docs)
          (Except.error e3)).2 =
        [CallRecord.healthCall, CallRecord.listDocs,
         CallRecord.statsCall]) ∧
    connectionFailedMessage.role = Role.system := by
  refine ⟨⟨rfl, rfl, rfl, rfl, rfl⟩, ⟨rfl, rfl, rfl, rfl, rfl⟩,
    ⟨rfl, rfl, rfl⟩, rfl⟩
